import Mathlib

/-
Shallow embedding of dkb2ynab.py: a converter from DKB bank CSV exports to the
YNAB import format.  The embedding covers the conversion core (`convert_data`),
the per-file driver (`convert_file`) and the per-cycle loop of `main`.

Modelling conventions:
* Each CSV row is modelled as a `DkbRow` of twelve string fields, one row per
  physical line (so `csv.DictReader.line_num` equals the row index + 1, and no
  field contains a newline character).
* Python exceptions are modelled as explicit error values.  Exceptions that the
  source catches with `try`/`except` are recorded in result fields instead of
  propagating.
* `datetime.strptime` with the formats `%d.%m.%y` and `%Y%m%d` is modelled
  faithfully (CPython `_strptime` regular expressions, POSIX two-digit year
  mapping, calendar validation by the `datetime` constructor).  `\d` is
  modelled as an ASCII digit.
* Output rows written incrementally to the YNAB file before an error are kept
  in the result, mirroring the row-by-row appends of the source.
-/

namespace Dkb2Ynab

/-- Numeric value of an ASCII digit character. -/
def dval (c : Char) : Nat := c.toNat - 48

/-- Character for the last decimal digit of a number. -/
def digitChar (n : Nat) : Char := Char.ofNat (48 + n % 10)

/-- A Python `datetime` value as produced in this program: all constructed
datetimes carry time 00:00:00, so only the calendar date is kept. -/
structure PyDate where
  year : Nat
  month : Nat
  day : Nat
deriving DecidableEq, Repr

/-- Strict comparison of `datetime` values (times are all midnight, so the
comparison is lexicographic on year, month, day). -/
def dateLt (a b : PyDate) : Bool :=
  a.year < b.year ||
    (a.year = b.year &&
      (a.month < b.month || (a.month = b.month && a.day < b.day)))

/-- Two-digit zero-padded decimal rendering (months and days). -/
def pad2 (n : Nat) : String := ⟨[digitChar (n / 10), digitChar n]⟩

/-- Four-digit zero-padded decimal rendering (years). -/
def pad4 (n : Nat) : String :=
  ⟨[digitChar (n / 1000), digitChar (n / 100), digitChar (n / 10), digitChar n]⟩

/-- Rendering of `date.strftime('%Y-%m-%d')` (dkb2ynab.py line 134). -/
def formatIso (d : PyDate) : String :=
  pad4 d.year ++ "-" ++ pad2 d.month ++ "-" ++ pad2 d.day

/-- Rendering of `str(datetime)` for the midnight datetimes produced by
`datetime.strptime(s, '%Y%m%d')`: `YYYY-MM-DD HH:MM:SS`.  This is how
`start_date` and `end_date` are interpolated into the f-string at
dkb2ynab.py lines 107-111. -/
def pyDatetimeStr (d : PyDate) : String := formatIso d ++ " 00:00:00"

/-- Gregorian leap-year rule, as used by `datetime`. -/
def isLeap (y : Nat) : Bool :=
  (y % 4 == 0 && y % 100 != 0) || y % 400 == 0

/-- Number of days of a month, as validated by the `datetime` constructor. -/
def daysInMonth (y m : Nat) : Nat :=
  if m = 2 then (if isLeap y then 29 else 28)
  else if m = 4 ∨ m = 6 ∨ m = 9 ∨ m = 11 then 30
  else 31

/-- CPython `_strptime` day field `%d`, two-digit alternatives
`3[01]|[12]\d|0[1-9]` in regex order. -/
def twoDigitDay (c1 c2 : Char) : Option Nat :=
  if c1 = '3' ∧ (c2 = '0' ∨ c2 = '1') then some (30 + dval c2)
  else if (c1 = '1' ∨ c1 = '2') ∧ c2.isDigit then some (10 * dval c1 + dval c2)
  else if c1 = '0' ∧ ('1' ≤ c2 ∧ c2 ≤ '9') then some (dval c2)
  else none

/-- One-digit alternative `[1-9]`, shared by the `%d` and `%m` fields. -/
def oneDigitNum (c : Char) : Option Nat :=
  if '1' ≤ c ∧ c ≤ '9' then some (dval c) else none

/-- CPython `_strptime` month field `%m`, two-digit alternatives
`1[0-2]|0[1-9]` in regex order. -/
def twoDigitMonth (c1 c2 : Char) : Option Nat :=
  if c1 = '1' ∧ ('0' ≤ c2 ∧ c2 ≤ '2') then some (10 + dval c2)
  else if c1 = '0' ∧ ('1' ≤ c2 ∧ c2 ≤ '9') then some (dval c2)
  else none

/-- Consume a `%d` field.  The two-digit alternatives are tried first, exactly
as in the regex `3[01]|[12]\d|0[1-9]|[1-9]`; backtracking from a successful
two-digit match to the one-digit alternative can never help, because the
continuation after a one-digit day requires a literal `.` where the two-digit
match saw a digit. -/
def parseDay : List Char → Option (Nat × List Char)
  | c1 :: c2 :: rest =>
    match twoDigitDay c1 c2 with
    | some d => some (d, rest)
    | none =>
      match oneDigitNum c1 with
      | some d => some (d, c2 :: rest)
      | none => none
  | [c1] =>
    match oneDigitNum c1 with
    | some d => some (d, [])
    | none => none
  | [] => none

/-- Consume a `%m` field, alternatives `1[0-2]|0[1-9]|[1-9]` in regex order. -/
def parseMonth : List Char → Option (Nat × List Char)
  | c1 :: c2 :: rest =>
    match twoDigitMonth c1 c2 with
    | some m => some (m, rest)
    | none =>
      match oneDigitNum c1 with
      | some m => some (m, c2 :: rest)
      | none => none
  | [c1] =>
    match oneDigitNum c1 with
    | some m => some (m, [])
    | none => none
  | [] => none

/-- Regex phase of `datetime.strptime(s, '%d.%m.%y')`: day, literal dot,
month, literal dot, exactly two digits of year; the whole string must be
consumed (`unconverted data remains` otherwise).  Returns the raw
`(day, month, two-digit year)` triple. -/
def parse_dmy (s : String) : Option (Nat × Nat × Nat) :=
  match parseDay s.data with
  | none => none
  | some (d, r1) =>
    match r1 with
    | '.' :: r2 =>
      match parseMonth r2 with
      | none => none
      | some (m, r3) =>
        match r3 with
        | '.' :: c1 :: c2 :: r5 =>
          if c1.isDigit ∧ c2.isDigit ∧ r5 = [] then
            some (d, m, 10 * dval c1 + dval c2)
          else none
        | _ => none
    | _ => none

/-- POSIX mapping of a two-digit year, as in CPython `_strptime`:
values 0-68 map into 2000-2068, values 69-99 map into 1969-1999. -/
def posixYear (yy : Nat) : Nat :=
  if yy ≤ 68 then 2000 + yy else 1900 + yy

/-- Model of `datetime.strptime(s, '%d.%m.%y')` (dkb2ynab.py lines 131-133):
regex phase, POSIX year mapping, then calendar validation performed by the
`datetime` constructor (the pattern already guarantees `1 ≤ day` and
`1 ≤ month ≤ 12`, so only the day-of-month bound remains). -/
def strptime_dmy (s : String) : Option PyDate :=
  match parse_dmy s with
  | none => none
  | some (d, m, yy) =>
    let y := posixYear yy
    if d ≤ daysInMonth y m then some ⟨y, m, d⟩ else none

/-- Model of `datetime.strptime(s, '%Y%m%d')` (dkb2ynab.py lines 302-303) for
the eight-character digit tokens produced at its only call site (the filename
pattern guarantees both tokens are exactly eight ASCII digits).  On such
tokens CPython accepts exactly: four digit year (at least 1, `MINYEAR`),
two-digit month alternative, two-digit day alternative, day within the month;
a one-digit month or day alternative leaves unconverted data behind and
raises `ValueError`. -/
def strptime_Ymd8 (s : String) : Option PyDate :=
  match s.data with
  | [a, b, c, d, m1, m2, d1, d2] =>
    if [a, b, c, d, m1, m2, d1, d2].all Char.isDigit then
      let y := 1000 * dval a + 100 * dval b + 10 * dval c + dval d
      match twoDigitMonth m1 m2, twoDigitDay d1 d2 with
      | some m, some dd =>
        if 1 ≤ y ∧ dd ≤ daysInMonth y m then some ⟨y, m, dd⟩ else none
      | _, _ => none
    else none
  | _ => none

/-- Model of `re.match(r'^DE\d{20}$', iban)` (dkb2ynab.py line 102): the
string is `DE` followed by exactly twenty ASCII digits.  (Python's `$` would
also accept one trailing newline, but a CSV field read from a single physical
line cannot contain a newline, so that case is unreachable here.) -/
def ibanMatch (s : String) : Bool :=
  match s.data with
  | 'D' :: 'E' :: rest => rest.length = 20 && rest.all Char.isDigit
  | _ => false

/-- One row of the DKB export, positionally mapped to the twelve field names
of dkb2ynab.py lines 57-70. -/
structure DkbRow where
  buchungsdatum : String
  wertstellung : String
  status : String
  zahlungspflichtige : String
  zahlungsempfaenger : String
  verwendungszweck : String
  umsatztyp : String
  iban : String
  betrag : String
  glaeubigerId : String
  mandatsreferenz : String
  kundenreferenz : String
deriving DecidableEq, Repr

/-- One row of the produced YNAB file (fields of dkb2ynab.py lines 73-78). -/
structure YnabRow where
  date : String
  payee : String
  memo : String
  amount : String
deriving DecidableEq, Repr

/-- Remove every occurrence of a character; models `str.replace(c, '')` for a
one-character pattern. -/
def removeChar (c : Char) (cs : List Char) : List Char :=
  cs.filter (fun x => x ≠ c)

/-- Replace every occurrence of a character; models `str.replace(a, b)` for
one-character pattern and replacement. -/
def replaceChar (a b : Char) (cs : List Char) : List Char :=
  cs.map (fun x => if x = a then b else x)

/-- Model of `row['Betrag (€)'].replace('.', '').replace(',', '.')`
(dkb2ynab.py lines 145-146). -/
def convAmount (s : String) : String :=
  ⟨replaceChar ',' '.' (removeChar '.' s.data)⟩

/-- Contiguous-substring test on character lists; models Python's `in` on
strings. -/
def listContainsSub (needle : List Char) : List Char → Bool
  | [] => needle.isEmpty
  | c :: rest => needle.isPrefixOf (c :: rest) || listContainsSub needle rest

/-- The balance-footer marker text of dkb2ynab.py line 167. -/
def balanceMarker : String := "Kontostand/Rechnungsabschluss"

/-- Model of `'Kontostand/Rechnungsabschluss' in row['Verwendungszweck']`. -/
def hasMarker (memo : String) : Bool :=
  listContainsSub balanceMarker.data memo.data

/-- Model of the date-range test of dkb2ynab.py lines 138-142:
`if start_date and end_date: if date < start_date or date > end_date`. -/
def rangeSkip (range : Option (PyDate × PyDate)) (date : PyDate) : Bool :=
  match range with
  | some (s, e) => dateLt date s || dateLt e date
  | none => false

/-- Errors raised out of `convert_data`.  `unboundFileName` is the
`UnboundLocalError` on `ynab_file_name` for an input with no rows at all:
the upload call at line 190 raises it, the `except` handler catches it, but
the handler itself references `ynab_file_name` again at line 195 and raises
a second `UnboundLocalError`, which escapes `convert_data` (the delete
block at lines 197-203 is never reached). -/
inductive ConvError where
  | invalidIban (iban : String)
  | dateParse (s : String)
  | unboundFileName
deriving DecidableEq, Repr

/-- Processing of one transaction row (dkb2ynab.py lines 128-184):
`Except.error _` models an uncaught `ValueError` from `strptime`;
`Except.ok none` models `continue` (row outside the date range, or the
balance-footer row); `Except.ok (some y)` is the row appended to the YNAB
file. -/
def processRow (range : Option (PyDate × PyDate)) (row : DkbRow) :
    Except ConvError (Option YnabRow) :=
  match strptime_dmy row.buchungsdatum with
  | none => Except.error (ConvError.dateParse row.buchungsdatum)
  | some date =>
    if rangeSkip range date then Except.ok none
    else
      let amount := convAmount row.betrag
      let payee :=
        if row.umsatztyp = "Eingang" then row.zahlungspflichtige
        else row.zahlungsempfaenger
      if row.zahlungspflichtige = "DKB AG" ∧ hasMarker row.verwendungszweck = true then
        Except.ok none
      else
        Except.ok (some ⟨formatIso date, payee, row.verwendungszweck, amount⟩)

/-- Processing of the transaction rows in order.  The first component lists
the rows written to the YNAB file before any error; the second records the
first uncaught exception, which aborts the remaining rows (the rows already
written stay in the file). -/
def processRows (range : Option (PyDate × PyDate)) :
    List DkbRow → List YnabRow × Option ConvError
  | [] => ([], none)
  | r :: rs =>
    match processRow range r with
    | Except.error e => ([], some e)
    | Except.ok none => processRows range rs
    | Except.ok (some y) =>
      ((y :: (processRows range rs).1), (processRows range rs).2)

/-- The YNAB file name built at dkb2ynab.py lines 106-116.  With an active
range the f-string interpolates the `datetime` values `start_date` and
`end_date` via `str`, i.e. as `YYYY-MM-DD HH:MM:SS`. -/
def mkFileName (workdir datestamp account iban : String)
    (range : Option (PyDate × PyDate)) : String :=
  match range with
  | some (s, e) =>
    workdir ++ "/" ++ datestamp ++ "-" ++ account ++ "-" ++ iban ++ "_" ++
      pyDatetimeStr s ++ "_" ++ pyDatetimeStr e ++ ".csv"
  | none => workdir ++ "/" ++ datestamp ++ "-" ++ account ++ "-" ++ iban ++ ".csv"

/-- Result of one `convert_data` call.  `fileName` is `some` exactly when the
YNAB output file was created (header line of the input processed with a valid
IBAN).  `error` is the exception that escaped the call, if any.
`uploadErrorLogged` and `deleteErrorLogged` record failures of the final
upload and local-delete steps that the `try`/`except` blocks of lines
186-203 caught and logged; the only failure modes of those steps with a
bound `ynab_file_name` are external webdav/filesystem errors, which this
embedding does not model, so both flags are false in every modelled
execution (the unbound-name failure of the empty-input case escapes from
the upload handler instead, see `ConvError.unboundFileName`). -/
structure ConvResult where
  fileName : Option String
  rows : List YnabRow
  error : Option ConvError
  uploadErrorLogged : Bool
  deleteErrorLogged : Bool
deriving DecidableEq, Repr

/-- Model of `convert_data` (dkb2ynab.py lines 50-203) on the parsed rows of
the input file.  Line 1 yields account name (first field) and IBAN (second
field); an IBAN failing the pattern raises `ValueError` before the output
file is created.  Lines 2-5 are ignored; lines 6 and later are transaction
rows.  After the loop the upload and the local delete each run in their own
`try`/`except`.  With an empty input `ynab_file_name` was never assigned:
the upload attempt raises `UnboundLocalError`, which the `except` at line
193 catches, but the handler itself references `ynab_file_name` at line 195
and raises a second `UnboundLocalError` out of `convert_data`; the delete
block is never reached, and nothing is logged for either step (the caller
`convert_file` catches the escaping exception). -/
def convert_data (workdir datestamp : String) (lines : List DkbRow)
    (range : Option (PyDate × PyDate)) : ConvResult :=
  match lines with
  | [] =>
    { fileName := none, rows := [], error := some ConvError.unboundFileName,
      uploadErrorLogged := false, deleteErrorLogged := false }
  | first :: rest =>
    if ibanMatch first.wertstellung then
      { fileName := some (mkFileName workdir datestamp first.buchungsdatum
          first.wertstellung range),
        rows := (processRows range ((first :: rest).drop 5)).1,
        error := (processRows range ((first :: rest).drop 5)).2,
        uploadErrorLogged := false, deleteErrorLogged := false }
    else
      { fileName := none, rows := [], error :=
          some (ConvError.invalidIban first.wertstellung),
        uploadErrorLogged := false, deleteErrorLogged := false }

/-- Model of `re.match(r'\d{8}-\d{8}\.csv', name)` (dkb2ynab.py lines
294-299).  `re.match` anchors only at the start of the string, so this is a
PREFIX match: eight ASCII digits, `-`, eight ASCII digits, `.csv`, then
anything at all. -/
def rangedPrefixMatch (name : String) : Bool :=
  match name.data with
  | a :: b :: c :: d :: e :: f :: g :: h :: '-' ::
      i :: j :: k :: l :: m :: n :: o :: p :: '.' :: 'c' :: 's' :: 'v' :: _ =>
    [a, b, c, d, e, f, g, h, i, j, k, l, m, n, o, p].all Char.isDigit
  | _ => false

/-- Split a character list at every occurrence of a separator character;
models Python `str.split(sep)` for a one-character separator. -/
def splitOnChar (sep : Char) : List Char → List (List Char)
  | [] => [[]]
  | c :: rest =>
    let r := splitOnChar sep rest
    if c = sep then [] :: r
    else (c :: r.headD []) :: r.tail

/-- Python `name.split(sep)` as a list of strings. -/
def splitTok (s : String) (sep : Char) : List String :=
  (splitOnChar sep s.data).map List.asString

/-- Outcome of one `convert_file` call that returned (did not raise).
`range` records the `start_date`/`end_date` pair passed to `convert_data`
(`none` on the unranged branch); `sourceDeleted` records whether the
`Path(file).unlink()` of line 322 ran. -/
structure FileOutcome where
  range : Option (PyDate × PyDate)
  result : ConvResult
  sourceDeleted : Bool
deriving DecidableEq, Repr

/-- Message of the `ValueError` raised by `strptime` on a filename date token
that is not a valid calendar date. -/
def strptimeTokenError : String :=
  "ValueError: invalid date token in ranged filename"

/-- Model of `convert_file` (dkb2ynab.py lines 287-322).  On the ranged
branch the two `strptime('%Y%m%d')` calls of lines 302-303 run OUTSIDE the
`try` block, so their `ValueError` propagates out of `convert_file`
(`Except.error`).  Errors raised by `convert_data` are caught and logged on
both branches.  On the unranged branch `Path(file).unlink()` at line 322 is
OUTSIDE the `try`/`except` too, hence runs unconditionally, even when the
conversion failed. -/
def convert_file (workdir datestamp name : String) (contents : List DkbRow) :
    Except String FileOutcome :=
  if rangedPrefixMatch name then
    let startTok := (splitTok name '-').getD 0 ""
    let endTok := (splitTok ((splitTok name '-').getD 1 "") '.').getD 0 ""
    match strptime_Ymd8 startTok, strptime_Ymd8 endTok with
    | some s, some e =>
      Except.ok
        { range := some (s, e),
          result := convert_data workdir datestamp contents (some (s, e)),
          sourceDeleted := false }
    | _, _ => Except.error strptimeTokenError
  else
    Except.ok
      { range := none,
        result := convert_data workdir datestamp contents none,
        sourceDeleted := true }

/-- Model of the per-cycle file loop of `main` (dkb2ynab.py lines 357-359):
the staged files are converted in order; `main` wraps `convert_file` in no
handler, so an exception escaping `convert_file` aborts the loop (and the
process), leaving the remaining files unprocessed. -/
def runCycle (workdir datestamp : String) :
    List (String × List DkbRow) → List (String × FileOutcome) × Option String
  | [] => ([], none)
  | (n, c) :: rest =>
    match convert_file workdir datestamp n c with
    | Except.ok r =>
      (((n, r) :: (runCycle workdir datestamp rest).1),
        (runCycle workdir datestamp rest).2)
    | Except.error e => ([], some e)

/-- Modelled from the spec: a "valid decimal numeral" (an optional leading
minus sign, then digits with at most one decimal point and at least one
digit).  This follows the spec's words only, for comparison with the code's
behavior; the code performs no such check. -/
def specIsDecimalNumeral (s : String) : Bool :=
  let cs := if s.data.headD ' ' = '-' then s.data.tail else s.data
  cs ≠ [] && cs.all (fun c => c.isDigit || c = '.') &&
    cs.any Char.isDigit && (cs.filter (fun c => c = '.')).length ≤ 1

/-- Modelled from the spec: the ranged-input trigger pattern
`\d{8}-\d{8}\.csv` matched against the ENTIRE file name ("exact-match over
whole filename").  This follows the spec's words only, for comparison with
the code's prefix match. -/
def specEntireMatch (name : String) : Bool :=
  match name.data with
  | [a, b, c, d, e, f, g, h, '-',
      i, j, k, l, m, n, o, p, '.', 'c', 's', 'v'] =>
    [a, b, c, d, e, f, g, h, i, j, k, l, m, n, o, p].all Char.isDigit
  | _ => false

/-- A representative transaction row: an inflow from ACME GmbH. -/
def sampleRow : DkbRow :=
  { buchungsdatum := "02.01.24", wertstellung := "02.01.24", status := "Gebucht",
    zahlungspflichtige := "ACME GmbH", zahlungsempfaenger := "Jane Doe",
    verwendungszweck := "Rechnung 42", umsatztyp := "Eingang",
    iban := "DE12345678901234567890", betrag := "1.234,56",
    glaeubigerId := "", mandatsreferenz := "", kundenreferenz := "" }

/-- A header row carrying a valid IBAN. -/
def sampleHeader : DkbRow :=
  { buchungsdatum := "Giro", wertstellung := "DE12345678901234567890",
    status := "", zahlungspflichtige := "", zahlungsempfaenger := "",
    verwendungszweck := "", umsatztyp := "", iban := "", betrag := "",
    glaeubigerId := "", mandatsreferenz := "", kundenreferenz := "" }

/-- A header row carrying the invalid IBAN `DE1234`. -/
def badHeader : DkbRow :=
  { buchungsdatum := "Giro", wertstellung := "DE1234",
    status := "", zahlungspflichtige := "", zahlungsempfaenger := "",
    verwendungszweck := "", umsatztyp := "", iban := "", betrag := "",
    glaeubigerId := "", mandatsreferenz := "", kundenreferenz := "" }

/-- A transaction row whose amount field transforms into `abc`, which is not
a decimal numeral. -/
def badAmountRow : DkbRow :=
  { buchungsdatum := "02.01.24", wertstellung := "02.01.24", status := "Gebucht",
    zahlungspflichtige := "P", zahlungsempfaenger := "E",
    verwendungszweck := "M", umsatztyp := "Ausgang",
    iban := "DE12345678901234567890", betrag := "abc",
    glaeubigerId := "", mandatsreferenz := "", kundenreferenz := "" }

/-- The balance-footer row of a DKB export. -/
def footerRow : DkbRow :=
  { buchungsdatum := "01.01.24", wertstellung := "01.01.24", status := "Gebucht",
    zahlungspflichtige := "DKB AG", zahlungsempfaenger := "",
    verwendungszweck := "Kontostand/Rechnungsabschluss vom 01.01.2024",
    umsatztyp := "", iban := "DE12345678901234567890", betrag := "100,00",
    glaeubigerId := "", mandatsreferenz := "", kundenreferenz := "" }

/-- Every row of the produced output originates from some input transaction
row that `processRow` accepted. -/
theorem processRows_mem (range : Option (PyDate × PyDate)) (rs : List DkbRow)
    (y : YnabRow) (h : y ∈ (processRows range rs).1) :
    ∃ row, row ∈ rs ∧ processRow range row = Except.ok (some y) := by
  induction rs with
  | nil => simp [processRows] at h
  | cons r rest ih =>
    unfold processRows at h
    split at h
    · simp at h
    · obtain ⟨row, hm, he⟩ := ih h
      exact ⟨row, List.mem_cons_of_mem _ hm, he⟩
    · rename_i z heq
      rcases List.mem_cons.mp h with h1 | h2
      · subst h1
        exact ⟨r, List.mem_cons_self r rest, heq⟩
      · obtain ⟨row, hm, he⟩ := ih h2
        exact ⟨row, List.mem_cons_of_mem _ hm, he⟩

/-- C1: For every input row accepted as a transaction (line number greater
than 5, parseable date, not the balance footer, and inside any active date
range), the output row's Payee field equals the row's payer field when the
transaction-type field equals the inflow marker `Eingang`, and equals the
row's payee field otherwise. -/
theorem c1_payee_direction (range : Option (PyDate × PyDate)) (row : DkbRow)
    (y : YnabRow) (h : processRow range row = Except.ok (some y)) :
    y.payee =
      if row.umsatztyp = "Eingang" then row.zahlungspflichtige
      else row.zahlungsempfaenger := by
  unfold processRow at h
  split at h
  · exact Except.noConfusion h
  · split at h
    · simp at h
    · split at h <;> split at h <;>
        first
        | (simp only [Except.ok.injEq, Option.some.injEq] at h; subst h; simp_all)
        | simp at h

/-- C1 witness: the sample inflow row is accepted and its Payee is resolved
by the direction rule. -/
theorem c1_witness :
    (YnabRow.mk "2024-01-02" "ACME GmbH" "Rechnung 42" "1234.56").payee =
      if sampleRow.umsatztyp = "Eingang" then sampleRow.zahlungspflichtige
      else sampleRow.zahlungsempfaenger :=
  c1_payee_direction none sampleRow
    ⟨"2024-01-02", "ACME GmbH", "Rechnung 42", "1234.56"⟩ rfl

/-- C4: if the IBAN field of the first (header) row does not match the
pattern `DE` followed by exactly 20 digits, conversion of the file fails
before any output is produced (no output file, zero output rows); the IBAN
`DE12345678901234567890` is accepted. -/
theorem c4_iban_validation :
    (∀ (workdir datestamp : String) (first : DkbRow) (rest : List DkbRow)
        (range : Option (PyDate × PyDate)),
        ibanMatch first.wertstellung = false →
        convert_data workdir datestamp (first :: rest) range =
          { fileName := none, rows := [],
            error := some (ConvError.invalidIban first.wertstellung),
            uploadErrorLogged := false, deleteErrorLogged := false }) ∧
    ibanMatch "DE12345678901234567890" = true := by
  constructor
  · intro wd ds first rest range h
    simp [convert_data, h]
  · rfl

/-- C4 witness: the header IBAN `DE1234` makes the conversion fail with no
output file and no output rows. -/
theorem c4_witness :
    convert_data "w" "d" [badHeader] none =
      { fileName := none, rows := [],
        error := some (ConvError.invalidIban badHeader.wertstellung),
        uploadErrorLogged := false, deleteErrorLogged := false } :=
  c4_iban_validation.1 "w" "d" badHeader [] none rfl

/-- C5: every row whose payer field equals `DKB AG` and whose memo contains
`Kontostand/Rechnungsabschluss` is excluded from the output, regardless of
where it occurs among the transaction rows: such a row never yields an
output row, and every output row originates from a non-footer source row. -/
theorem c5_balance_footer_excluded :
    (∀ (range : Option (PyDate × PyDate)) (row : DkbRow) (y : YnabRow),
        row.zahlungspflichtige = "DKB AG" →
        hasMarker row.verwendungszweck = true →
        processRow range row ≠ Except.ok (some y)) ∧
    (∀ (range : Option (PyDate × PyDate)) (rs : List DkbRow) (y : YnabRow),
        y ∈ (processRows range rs).1 →
        ∃ row, row ∈ rs ∧ processRow range row = Except.ok (some y)) := by
  constructor
  · intro range row y h1 h2 h
    unfold processRow at h
    split at h
    · exact Except.noConfusion h
    · split at h
      · simp at h
      · split at h <;> split at h
        · simp at h
        · rename_i hcond
          exact hcond ⟨h1, h2⟩
        · simp at h
        · rename_i hcond
          exact hcond ⟨h1, h2⟩
  · exact processRows_mem

/-- C5 witness: the concrete balance-footer row is never emitted. -/
theorem c5_witness :
    processRow none footerRow ≠
      Except.ok (some (YnabRow.mk "2024-01-01" ""
        "Kontostand/Rechnungsabschluss vom 01.01.2024" "100.00")) :=
  c5_balance_footer_excluded.1 none footerRow _ rfl rfl

/-- C10 counterexample: the claim says that for a zero-line input
`convert_data` completes without raising, with the upload and local-delete
failures caught and logged; in fact the `except` handler at lines 194-195
itself references the unbound `ynab_file_name` and raises
`UnboundLocalError` out of `convert_data` (the delete block is never
reached), so the call ends with an escaping error, not normally. -/
theorem c10_counterexample :
    convert_data "w" "d" [] none =
      { fileName := none, rows := [], error := some ConvError.unboundFileName,
        uploadErrorLogged := false, deleteErrorLogged := false } ∧
    (convert_data "w" "d" [] none).error ≠ none :=
  ⟨rfl, by decide⟩

/-- C10 (amended): for an input file containing zero lines no output file is
created and no row is written, but `convert_data` does not complete
normally: the upload attempt's `UnboundLocalError` is caught, the handler
re-references the unbound `ynab_file_name` and raises a second
`UnboundLocalError` out of `convert_data`, and the local-delete attempt is
never reached, so neither failure is logged; the escaping exception is
caught by `convert_file`'s handler (whose unranged branch still deletes the
empty source file), so the cycle continues. -/
theorem c10_empty_file :
    (∀ (workdir datestamp : String) (range : Option (PyDate × PyDate)),
        convert_data workdir datestamp [] range =
          { fileName := none, rows := [],
            error := some ConvError.unboundFileName,
            uploadErrorLogged := false, deleteErrorLogged := false }) ∧
    convert_file "w" "d" "empty.csv" [] =
      Except.ok
        { range := none,
          result :=
            { fileName := none, rows := [],
              error := some ConvError.unboundFileName,
              uploadErrorLogged := false, deleteErrorLogged := false },
          sourceDeleted := true } :=
  ⟨fun _ _ _ => rfl, rfl⟩

/-- C2 counterexample: the claim says every two-digit year is interpreted as
belonging to the 2000s, but the booking date `02.01.99` parses to the year
1999 (rendered `1999-01-02`), which is not in the 2000s. -/
theorem c2_counterexample :
    strptime_dmy "02.01.99" = some ⟨1999, 1, 2⟩ ∧
    (strptime_dmy "02.01.99").map formatIso = some "1999-01-02" ∧
    1999 < 2000 :=
  ⟨rfl, rfl, by norm_num⟩

/-- C2 (amended): the date conversion maps a two-digit year `yy` to
`2000 + yy` when `yy ≤ 68` and to `1900 + yy` otherwise (the POSIX rule);
`02.01.24` becomes `2024-01-02`; a string not matching the day.month.year
pattern makes the date conversion fail (which aborts the file). -/
theorem c2_year_mapping :
    (∀ (s : String) (d m yy : Nat), parse_dmy s = some (d, m, yy) →
        ∀ dt, strptime_dmy s = some dt →
          dt.year = if yy ≤ 68 then 2000 + yy else 1900 + yy) ∧
    (strptime_dmy "02.01.24").map formatIso = some "2024-01-02" ∧
    (∀ s, parse_dmy s = none → strptime_dmy s = none) := by
  refine ⟨?_, rfl, ?_⟩
  · intro s d m yy hp dt hdt
    unfold strptime_dmy at hdt
    rw [hp] at hdt
    have h2 : (if d ≤ daysInMonth (posixYear yy) m
        then some (PyDate.mk (posixYear yy) m d) else none) = some dt := hdt
    by_cases hle : d ≤ daysInMonth (posixYear yy) m
    · rw [if_pos hle] at h2
      simp only [Option.some.injEq] at h2
      subst h2
      rfl
    · rw [if_neg hle] at h2
      exact Option.noConfusion h2
  · intro s hp
    unfold strptime_dmy
    rw [hp]

/-- C2 witness: the amended year mapping evaluated at `02.01.24`. -/
theorem c2_witness :
    (PyDate.mk 2024 1 2).year = if 24 ≤ 68 then 2000 + 24 else 1900 + 24 :=
  c2_year_mapping.1 "02.01.24" 2 1 24 rfl ⟨2024, 1, 2⟩ rfl

/-- C3 counterexample: the claim says a row whose transformed amount is not
a valid decimal numeral is rejected, but the row with amount field `abc` is
accepted and written with amount `abc`, which is not a decimal numeral. -/
theorem c3_counterexample :
    processRow none badAmountRow =
      Except.ok (some (YnabRow.mk "2024-01-02" "E" "M" "abc")) ∧
    specIsDecimalNumeral "abc" = false :=
  ⟨rfl, rfl⟩

/-- C3 (amended): the amount conversion strips `.` and replaces `,` with `.`
(`1.234,56` yields `1234.56`, `-12,00` yields `-12.00`), and every accepted
row carries exactly the transformed string; no validity check is performed —
the only row-level error is an unparseable date, never a malformed amount. -/
theorem c3_amount_transform :
    convAmount "1.234,56" = "1234.56" ∧ convAmount "-12,00" = "-12.00" ∧
    (∀ (range : Option (PyDate × PyDate)) (row : DkbRow) (y : YnabRow),
        processRow range row = Except.ok (some y) →
        y.amount = convAmount row.betrag) ∧
    (∀ (range : Option (PyDate × PyDate)) (row : DkbRow) (e : ConvError),
        processRow range row = Except.error e →
        e = ConvError.dateParse row.buchungsdatum) := by
  refine ⟨rfl, rfl, ?_, ?_⟩
  · intro range row y h
    unfold processRow at h
    split at h
    · exact Except.noConfusion h
    · split at h
      · simp at h
      · split at h <;> split at h <;>
          first
          | (simp only [Except.ok.injEq, Option.some.injEq] at h; subst h; rfl)
          | simp at h
  · intro range row e h
    unfold processRow at h
    split at h
    · simp only [Except.error.injEq] at h
      exact h.symm
    · split at h
      · exact Except.noConfusion h
      · split at h <;> split at h <;> exact Except.noConfusion h

/-- C3 witness: the accepted row with amount field `abc` carries the
transformed amount. -/
theorem c3_witness :
    (YnabRow.mk "2024-01-02" "E" "M" "abc").amount =
      convAmount badAmountRow.betrag :=
  c3_amount_transform.2.2.1 none badAmountRow ⟨"2024-01-02", "E", "M", "abc"⟩ rfl

/-- C6 counterexample: for the ranged source file `20240101-20240131.csv`
the produced output file name embeds `str(datetime)` renderings
(`2024-01-01 00:00:00`), not the 8-digit `YYYYMMDD` tokens the claim
states. -/
theorem c6_counterexample :
    convert_file "wd" "20250107" "20240101-20240131.csv" [sampleHeader] =
      Except.ok
        { range := some (⟨2024, 1, 1⟩, ⟨2024, 1, 31⟩),
          result :=
            { fileName := some
                "wd/20250107-Giro-DE12345678901234567890_2024-01-01 00:00:00_2024-01-31 00:00:00.csv",
              rows := [], error := none,
              uploadErrorLogged := false, deleteErrorLogged := false },
          sourceDeleted := false } ∧
    "wd/20250107-Giro-DE12345678901234567890_2024-01-01 00:00:00_2024-01-31 00:00:00.csv" ≠
      "wd/20250107-Giro-DE12345678901234567890_20240101_20240131.csv" :=
  ⟨rfl, by decide⟩

/-- C6 (amended): for every ranged conversion the output file name is
`<workdir>/<run-datestamp>-<accountName>-<iban>_<start>_<end>.csv` where the
start and end dates are rendered as `str(datetime)`, i.e.
`YYYY-MM-DD 00:00:00`, not as 8-digit `YYYYMMDD` tokens. -/
theorem c6_ranged_filename :
    (∀ (workdir datestamp : String) (first : DkbRow) (rest : List DkbRow)
        (s e : PyDate),
        ibanMatch first.wertstellung = true →
        (convert_data workdir datestamp (first :: rest) (some (s, e))).fileName =
          some (workdir ++ "/" ++ datestamp ++ "-" ++ first.buchungsdatum ++
            "-" ++ first.wertstellung ++ "_" ++ pyDatetimeStr s ++ "_" ++
            pyDatetimeStr e ++ ".csv")) ∧
    pyDatetimeStr ⟨2024, 1, 31⟩ = "2024-01-31 00:00:00" := by
  constructor
  · intro wd ds first rest s e h
    simp [convert_data, h, mkFileName]
  · rfl

/-- C6 witness: the ranged file name produced for the sample header. -/
theorem c6_witness :
    (convert_data "wd" "ds" [sampleHeader]
        (some (⟨2024, 1, 1⟩, ⟨2024, 1, 31⟩))).fileName =
      some ("wd" ++ "/" ++ "ds" ++ "-" ++ sampleHeader.buchungsdatum ++ "-" ++
        sampleHeader.wertstellung ++ "_" ++ pyDatetimeStr ⟨2024, 1, 1⟩ ++ "_" ++
        pyDatetimeStr ⟨2024, 1, 31⟩ ++ ".csv") :=
  c6_ranged_filename.1 "wd" "ds" sampleHeader [] ⟨2024, 1, 1⟩ ⟨2024, 1, 31⟩ rfl

/-- C7 counterexample: `20240101-20240131.csv.old` does not match the
whole-name pattern, yet the code activates the date-range filter for it
(the pattern is matched only against a prefix of the name). -/
theorem c7_counterexample :
    specEntireMatch "20240101-20240131.csv.old" = false ∧
    convert_file "wd" "20250107" "20240101-20240131.csv.old" [sampleHeader] =
      Except.ok
        { range := some (⟨2024, 1, 1⟩, ⟨2024, 1, 31⟩),
          result := convert_data "wd" "20250107" [sampleHeader]
            (some (⟨2024, 1, 1⟩, ⟨2024, 1, 31⟩)),
          sourceDeleted := false } :=
  ⟨rfl, rfl⟩

/-- C7 (amended): the date-range filter is activated if and only if the
pattern eight digits, hyphen, eight digits, `.csv` matches a PREFIX of the
source file name (names with trailing characters after `.csv` still activate
it); every whole-name match is in particular a prefix match, and any name
without the prefix is treated as unranged with no error. -/
theorem c7_range_trigger :
    (∀ name, specEntireMatch name = true → rangedPrefixMatch name = true) ∧
    rangedPrefixMatch "20240101-20240131.csv.old" = true ∧
    (∀ (workdir datestamp name : String) (contents : List DkbRow),
        rangedPrefixMatch name = false →
        convert_file workdir datestamp name contents =
          Except.ok
            { range := none,
              result := convert_data workdir datestamp contents none,
              sourceDeleted := true }) ∧
    (∀ (workdir datestamp name : String) (contents : List DkbRow)
        (r : FileOutcome),
        convert_file workdir datestamp name contents = Except.ok r →
        r.range.isSome = true → rangedPrefixMatch name = true) := by
  refine ⟨?_, rfl, ?_, ?_⟩
  · intro name h
    unfold specEntireMatch at h
    split at h
    · rename_i heq
      unfold rangedPrefixMatch
      rw [heq]
      exact h
    · exact Bool.noConfusion h
  · intro wd ds name contents h
    simp [convert_file, h]
  · intro wd ds name contents r hr hs
    by_cases hm : rangedPrefixMatch name = true
    · exact hm
    · unfold convert_file at hr
      rw [if_neg hm] at hr
      simp only [Except.ok.injEq] at hr
      subst hr
      simp at hs

/-- C7 witness: a name without the prefix pattern is treated as unranged. -/
theorem c7_witness :
    convert_file "wd" "ds" "export.csv" [] =
      Except.ok
        { range := none, result := convert_data "wd" "ds" [] none,
          sourceDeleted := true } :=
  c7_range_trigger.2.2.1 "wd" "ds" "export.csv" [] rfl

/-- C8: for the unranged file `export.csv` whose header IBAN `DE1234` makes
the conversion fail, `convert_file` still deletes the local source file: the
exception is caught by the `except` block and `Path(file).unlink()` at line
322 runs unconditionally, contradicting the claim (and the comment at lines
317-319 of the source). -/
theorem c8_source_deleted_despite_failure :
    convert_file "wd" "20250107" "export.csv" [badHeader] =
      Except.ok
        { range := none,
          result :=
            { fileName := none, rows := [],
              error := some (ConvError.invalidIban "DE1234"),
              uploadErrorLogged := false, deleteErrorLogged := false },
          sourceDeleted := true } :=
  rfl

/-- C9: the filename `20240230-20240301.csv` matches the digit pattern but
`20240230` is not a valid calendar date; the `strptime` call at line 302
runs outside the `try` block, so `convert_file` raises instead of returning
normally, and the loop in `main` (which has no handler) stops before the
sibling file `export.csv` is processed. -/
theorem c9_bad_token_aborts_cycle :
    rangedPrefixMatch "20240230-20240301.csv" = true ∧
    strptime_Ymd8 "20240230" = none ∧
    convert_file "wd" "20250107" "20240230-20240301.csv" [sampleHeader] =
      Except.error strptimeTokenError ∧
    runCycle "wd" "20250107"
        [("20240230-20240301.csv", [sampleHeader]),
          ("export.csv", [sampleHeader])] =
      ([], some strptimeTokenError) :=
  ⟨rfl, rfl, rfl, rfl⟩

end Dkb2Ynab
